import Mathlib

/-!
Verification of the distributed dynamic-node-ID allocation server
(`uavcan::dynamic_node_id_server::distributed::Server`,
`src/libuavcan/include/uavcan/protocol/dynamic_node_id_server/distributed/server.hpp`).

The server sits above a Raft consensus core (leadership flag, replicated log,
backward traversal, append) and a request transport (broadcast). Those
collaborators are external to the repository snapshot, so their observable
interface is modelled from the specification; the server's own decision logic
is translated directly from the source. Side effects on collaborators
(append, broadcast, internal-failure reports) are recorded as an explicit
effect trace, and results of fallible collaborator calls are passed in as
parameters.
-/

namespace Uavcan

/-- Device unique ID (`UniqueID`): opaque, immutable, equality-comparable
value supplied by the requesting device; modelled as a natural number. -/
abbrev UniqueID := Nat

/-- Modelled from the spec: `NodeID` (NetworkIdentifier) — a small bounded
integer with a validity predicate ("usable unicast value") and an
invalid/sentinel value; the `NodeID` class itself is not under src/. -/
structure NodeID where
  val : Nat
deriving DecidableEq

/-- Modelled from the spec: the usable-unicast validity predicate. Value 0 is
the broadcast value and values above the 7-bit maximum 127 are invalid, so the
usable unicast values are 1..127. -/
def NodeID.isUnicast (n : NodeID) : Bool :=
  decide (1 ≤ n.val ∧ n.val ≤ 127)

/-- Raw integer value of a `NodeID` (`NodeID::get`). -/
def NodeID.get (n : NodeID) : Nat := n.val

/-- Log entry `protocol::dynamic_node_id::server::Entry`: an immutable pair of
a device unique ID and a raw node-ID value. -/
structure Entry where
  unique_id : UniqueID
  node_id : Nat
deriving DecidableEq

/-- `RaftCore::LogEntryInfo`: a log entry together with its committed flag. -/
structure LogEntryInfo where
  entry : Entry
  committed : Bool
deriving DecidableEq

/-- Modelled from the spec: the observable state of the consensus core
(`RaftCore`) consumed by the server — the leadership flag and the replicated
log, oldest entry first. -/
structure RaftCoreState where
  log : List LogEntryInfo
  is_leader : Bool
deriving DecidableEq

/-- Modelled from the spec: `RaftCore::isLeader` — whether this replica
currently believes itself leader. -/
def RaftCoreState.isLeader (s : RaftCoreState) : Bool := s.is_leader

/-- Modelled from the spec: `RaftCore::areAllLogEntriesCommitted` — the local
log has no uncommitted entries. -/
def RaftCoreState.areAllLogEntriesCommitted (s : RaftCoreState) : Bool :=
  s.log.all (fun info => info.committed)

/-- Modelled from the spec: `RaftCore::traverseLogFromEndUntil` — scan the log
from the most recent entry backward and return the first entry matching the
predicate, or none. -/
def RaftCoreState.traverseLogFromEndUntil (s : RaftCoreState)
    (p : LogEntryInfo → Bool) : Option LogEntryInfo :=
  s.log.reverse.find? p

/-- `Server::UniqueIDLogPredicate`: matches log entries whose unique ID equals
the captured one. -/
def UniqueIDLogPredicate (unique_id : UniqueID) (info : LogEntryInfo) : Bool :=
  info.entry.unique_id == unique_id

/-- `Server::NodeIDLogPredicate`: matches log entries whose node-ID value
equals the captured node ID's raw value. -/
def NodeIDLogPredicate (node_id : NodeID) (info : LogEntryInfo) : Bool :=
  info.entry.node_id == node_id.get

/-- Observable side effects of the server on its collaborators: a log append
(`RaftCore::appendLog`), a response broadcast
(`AllocationRequestManager::broadcastAllocationResponse`), and a diagnostic
report (`INode::registerInternalFailure`). -/
inductive Effect
  | append (unique_id : UniqueID) (node_id : NodeID)
  | broadcast (unique_id : UniqueID) (node_id : Nat)
  | reportFailure (reason : String)
deriving DecidableEq

/-- Number of append effects in a trace. -/
def countAppend (es : List Effect) : Nat :=
  (es.filter fun e => match e with
    | Effect.append _ _ => true
    | _ => false).length

/-- Number of broadcast effects in a trace. -/
def countBroadcast (es : List Effect) : Nat :=
  (es.filter fun e => match e with
    | Effect.broadcast _ _ => true
    | _ => false).length

/-- Number of internal-failure reports in a trace. -/
def countReport (es : List Effect) : Nat :=
  (es.filter fun e => match e with
    | Effect.reportFailure _ => true
    | _ => false).length

/-- `Server::canPublishFollowupAllocationResponse`: the server may publish
follow-up allocation responses only while it is leader and its whole log is
committed. -/
def canPublishFollowupAllocationResponse (s : RaftCoreState) : Bool :=
  s.isLeader && s.areAllLogEntriesCommitted

/-- `Server::isNodeIDTaken`: true when the backward log scan finds any entry,
committed or not, carrying the candidate node-ID value. -/
def isNodeIDTaken (s : RaftCoreState) (node_id : NodeID) : Bool :=
  (s.traverseLogFromEndUntil (NodeIDLogPredicate node_id)).isSome

/-- `Server::tryPublishAllocationResult`: broadcast the entry's allocation;
when the broadcast result is negative, report an internal failure.
`broadcastRes` is the result returned by the transport call. -/
def tryPublishAllocationResult (broadcastRes : Int) (entry : Entry) :
    List Effect :=
  Effect.broadcast entry.unique_id entry.node_id ::
    (if broadcastRes < 0 then
       [Effect.reportFailure "Dynamic allocation final broadcast"]
     else [])

/-- `Server::allocateNewNode`: ask the node-ID selector for a free node ID
preferring the requested one; when the result is not unicast, return silently;
otherwise append the new allocation, reporting an internal failure when the
append result is negative. `selector` stands for the injected
`NodeIDSelector<Server>::findFreeNodeID` collaborator and `appendRes` for the
result of `RaftCore::appendLog`. -/
def allocateNewNode (selector : NodeID → (NodeID → Bool) → NodeID)
    (appendRes : Int) (s : RaftCoreState) (unique_id : UniqueID)
    (preferred_node_id : NodeID) : List Effect :=
  let allocated := selector preferred_node_id (fun nid => isNodeIDTaken s nid)
  if !allocated.isUnicast then []
  else
    Effect.append unique_id allocated ::
      (if appendRes < 0 then
         [Effect.reportFailure "Raft log append new allocation"]
       else [])

/-- `Server::handleAllocationRequest`: search the log backward for the
requesting unique ID; if a committed match is found, publish it; if an
uncommitted match is found, ignore; if no match is found, allocate a new node
only when this replica is leader. -/
def handleAllocationRequest (selector : NodeID → (NodeID → Bool) → NodeID)
    (appendRes broadcastRes : Int) (s : RaftCoreState)
    (unique_id : UniqueID) (preferred_node_id : NodeID) : List Effect :=
  match s.traverseLogFromEndUntil (UniqueIDLogPredicate unique_id) with
  | some result =>
      if result.committed then
        tryPublishAllocationResult broadcastRes result.entry
      else []
  | none =>
      if s.isLeader then
        allocateNewNode selector appendRes s unique_id preferred_node_id
      else []

/-- `Server::handleLogCommitOnLeader`: publish the committed entry's
allocation unconditionally. -/
def handleLogCommitOnLeader (broadcastRes : Int) (entry : Entry) :
    List Effect :=
  tryPublishAllocationResult broadcastRes entry

/-- Initialization sub-steps performed by `Server::init`, in the order they
are attempted. -/
inductive InitStep
  | raftCoreInit
  | allocationRequestManagerInit
deriving DecidableEq

/-- `Server::init`: initialize the Raft core first, returning its error on
failure; then the allocation request manager, returning its error on failure;
otherwise return 0. The second component records which sub-initializations
were performed, in order; `raftRes` and `armRes` are the results of the
respective sub-initializations. -/
def init (raftRes armRes : Int) : Int × List InitStep :=
  if raftRes < 0 then (raftRes, [InitStep.raftCoreInit])
  else if armRes < 0 then
    (armRes, [InitStep.raftCoreInit, InitStep.allocationRequestManagerInit])
  else (0, [InitStep.raftCoreInit, InitStep.allocationRequestManagerInit])

/-- Modelled from the spec: `NodeIDSelector::findFreeNodeID` is not under
src/; per the spec the selector, given a preferred identifier and an is-taken
predicate, returns a free identifier (preferring the requested one) or the
invalid sentinel (here the broadcast value 0) when none exists. -/
def findFreeNodeID (preferred : NodeID) (isTaken : NodeID → Bool) : NodeID :=
  if preferred.isUnicast && !isTaken preferred then preferred
  else
    match (List.range 128).find?
        (fun v => (NodeID.mk v).isUnicast && !isTaken (NodeID.mk v)) with
    | some v => NodeID.mk v
    | none => NodeID.mk 0

/-- Reduction lemma: when the backward scan finds an entry for the unique ID,
`handleAllocationRequest` reduces to the committed-entry dispatch. -/
theorem handleAllocationRequest_eq_found
    (selector : NodeID → (NodeID → Bool) → NodeID)
    (appendRes broadcastRes : Int) (s : RaftCoreState)
    (unique_id : UniqueID) (preferred : NodeID) (info : LogEntryInfo)
    (hfind : s.traverseLogFromEndUntil (UniqueIDLogPredicate unique_id) =
      some info) :
    handleAllocationRequest selector appendRes broadcastRes s unique_id
        preferred =
      (if info.committed then tryPublishAllocationResult broadcastRes info.entry
       else []) := by
  unfold handleAllocationRequest
  rw [hfind]

/-- Reduction lemma: when the backward scan finds no entry for the unique ID,
`handleAllocationRequest` reduces to the leader-gated allocation. -/
theorem handleAllocationRequest_eq_unseen
    (selector : NodeID → (NodeID → Bool) → NodeID)
    (appendRes broadcastRes : Int) (s : RaftCoreState)
    (unique_id : UniqueID) (preferred : NodeID)
    (hfind : s.traverseLogFromEndUntil (UniqueIDLogPredicate unique_id) =
      none) :
    handleAllocationRequest selector appendRes broadcastRes s unique_id
        preferred =
      (if s.isLeader then
         allocateNewNode selector appendRes s unique_id preferred
       else []) := by
  unfold handleAllocationRequest
  rw [hfind]

/-- Reduction lemma: when the selector returns a unicast node ID,
`allocateNewNode` appends it, followed by a failure report exactly when the
append result is negative. -/
theorem allocateNewNode_unicast
    (selector : NodeID → (NodeID → Bool) → NodeID) (appendRes : Int)
    (s : RaftCoreState) (unique_id : UniqueID) (preferred : NodeID)
    (hu : (selector preferred (fun nid => isNodeIDTaken s nid)).isUnicast =
      true) :
    allocateNewNode selector appendRes s unique_id preferred =
      Effect.append unique_id
          (selector preferred (fun nid => isNodeIDTaken s nid)) ::
        (if appendRes < 0 then
           [Effect.reportFailure "Raft log append new allocation"]
         else []) := by
  unfold allocateNewNode
  simp [hu]

/-- Reduction lemma: when the selector returns a non-unicast node ID,
`allocateNewNode` does nothing. -/
theorem allocateNewNode_not_unicast
    (selector : NodeID → (NodeID → Bool) → NodeID) (appendRes : Int)
    (s : RaftCoreState) (unique_id : UniqueID) (preferred : NodeID)
    (hu : (selector preferred (fun nid => isNodeIDTaken s nid)).isUnicast =
      false) :
    allocateNewNode selector appendRes s unique_id preferred = [] := by
  unfold allocateNewNode
  simp [hu]

/-- The modelled selector only returns identifiers the is-taken predicate
rejects: a unicast result is never taken. -/
theorem findFreeNodeID_free (preferred : NodeID) (isTaken : NodeID → Bool)
    (h : (findFreeNodeID preferred isTaken).isUnicast = true) :
    isTaken (findFreeNodeID preferred isTaken) = false := by
  revert h
  unfold findFreeNodeID
  split
  · next hc =>
      intro _
      simp only [Bool.and_eq_true, Bool.not_eq_true'] at hc
      exact hc.2
  · split
    · next v hv =>
        intro _
        have hp := List.find?_some hv
        simp only [Bool.and_eq_true, Bool.not_eq_true'] at hp
        exact hp.2
    · intro h
      exact absurd h (by decide)

/-- The modelled selector honors the preference: a unicast preferred node ID
that is not taken is returned unchanged. -/
theorem findFreeNodeID_prefers (preferred : NodeID) (isTaken : NodeID → Bool)
    (h1 : preferred.isUnicast = true) (h2 : isTaken preferred = false) :
    findFreeNodeID preferred isTaken = preferred := by
  unfold findFreeNodeID
  simp [h1, h2]

/-- C1: for every coordinator state, `canPublishFollowupAllocationResponse`
returns true if and only if both `isLeader` and `areAllLogEntriesCommitted`
return true, covering all four truth-table combinations of the two
predicates. -/
theorem canPublishFollowup_iff_leader_and_committed (s : RaftCoreState) :
    canPublishFollowupAllocationResponse s = true ↔
      (s.isLeader = true ∧ s.areAllLogEntriesCommitted = true) := by
  simp [canPublishFollowupAllocationResponse]

/-- C4: for every committed entry delivered to it and every transport result,
`handleLogCommitOnLeader` causes exactly one broadcast, carrying the entry's
unique ID and node ID, and zero appends — unconditionally. -/
theorem handleLogCommitOnLeader_broadcasts_once (broadcastRes : Int)
    (entry : Entry) :
    countBroadcast (handleLogCommitOnLeader broadcastRes entry) = 1 ∧
    Effect.broadcast entry.unique_id entry.node_id ∈
      handleLogCommitOnLeader broadcastRes entry ∧
    countAppend (handleLogCommitOnLeader broadcastRes entry) = 0 := by
  unfold handleLogCommitOnLeader tryPublishAllocationResult
  split <;> simp [countBroadcast, countAppend]

/-- C7: `isNodeIDTaken` returns true if and only if the backward log scan
finds some entry, committed or not, whose node-ID value equals the
candidate's; as a function of the state it reads, it modifies no state. -/
theorem isNodeIDTaken_iff_exists_entry (s : RaftCoreState) (node_id : NodeID) :
    isNodeIDTaken s node_id = true ↔
      ∃ info ∈ s.log, info.entry.node_id = node_id.get := by
  unfold isNodeIDTaken RaftCoreState.traverseLogFromEndUntil NodeIDLogPredicate
  rw [List.find?_isSome]
  constructor
  · rintro ⟨info, hmem, hp⟩
    exact ⟨info, List.mem_reverse.mp hmem, by simpa using hp⟩
  · rintro ⟨info, hmem, hp⟩
    exact ⟨info, List.mem_reverse.mpr hmem, by simpa using hp⟩

/-- C9: `init` initializes the Raft core first and the request transport
second, in that fixed order; a failing sub-initialization makes `init` return
that sub-component's error at once, skipping the later sub-component; `init`
returns 0 exactly when both sub-initializations succeed. -/
theorem init_order_and_error_propagation (raftRes armRes : Int) :
    (init raftRes armRes).2.head? = some InitStep.raftCoreInit ∧
    (init raftRes armRes).2 =
      (if raftRes < 0 then [InitStep.raftCoreInit]
       else [InitStep.raftCoreInit, InitStep.allocationRequestManagerInit]) ∧
    (init raftRes armRes).1 =
      (if raftRes < 0 then raftRes else if armRes < 0 then armRes else 0) ∧
    ((init raftRes armRes).1 = 0 ↔ 0 ≤ raftRes ∧ 0 ≤ armRes) := by
  unfold init
  rcases lt_or_ge raftRes 0 with hr | hr
  · simp [hr, not_le.mpr hr]
    omega
  · rcases lt_or_ge armRes 0 with ha | ha
    · simp [not_lt.mpr hr, ha]
      omega
    · simp [not_lt.mpr hr, not_lt.mpr ha]
      omega

/-- C2: when the backward scan finds a committed entry for the requesting
unique ID, `handleAllocationRequest` causes exactly one broadcast, carrying
that unique ID and the committed entry's node ID, and zero appends; the
supplied preferred node ID has no effect on the outcome, and as a pure
function of the log state the outcome is identical on every repeated call. -/
theorem handleAllocationRequest_committed_entry
    (selector : NodeID → (NodeID → Bool) → NodeID)
    (appendRes broadcastRes : Int) (s : RaftCoreState)
    (unique_id : UniqueID) (p q : NodeID) (info : LogEntryInfo)
    (hfind : s.traverseLogFromEndUntil (UniqueIDLogPredicate unique_id) =
      some info)
    (hcom : info.committed = true) :
    countBroadcast
      (handleAllocationRequest selector appendRes broadcastRes s
        unique_id p) = 1 ∧
    Effect.broadcast unique_id info.entry.node_id ∈
      handleAllocationRequest selector appendRes broadcastRes s unique_id p ∧
    countAppend
      (handleAllocationRequest selector appendRes broadcastRes s
        unique_id p) = 0 ∧
    handleAllocationRequest selector appendRes broadcastRes s unique_id p =
      handleAllocationRequest selector appendRes broadcastRes s unique_id q := by
  have huid : info.entry.unique_id = unique_id := by
    have hp : UniqueIDLogPredicate unique_id info = true :=
      List.find?_some
        (by simpa [RaftCoreState.traverseLogFromEndUntil] using hfind)
    simpa [UniqueIDLogPredicate] using hp
  unfold handleAllocationRequest tryPublishAllocationResult
  rw [hfind]
  simp only [hcom]
  split <;> simp_all [huid, countBroadcast, countAppend]

/-- C2 witness: a concrete leader state whose log holds the committed entry
(7, 5); the request for unique ID 7 with preference 9 broadcasts (7, 5) once,
appends nothing, and ignores the preference. -/
theorem handleAllocationRequest_committed_entry_witness :
    countBroadcast (handleAllocationRequest (fun pr _ => pr) 0 0
      ⟨[⟨⟨7, 5⟩, true⟩], true⟩ 7 ⟨9⟩) = 1 ∧
    Effect.broadcast 7 5 ∈
      handleAllocationRequest (fun pr _ => pr) 0 0
        ⟨[⟨⟨7, 5⟩, true⟩], true⟩ 7 ⟨9⟩ ∧
    countAppend (handleAllocationRequest (fun pr _ => pr) 0 0
      ⟨[⟨⟨7, 5⟩, true⟩], true⟩ 7 ⟨9⟩) = 0 ∧
    handleAllocationRequest (fun pr _ => pr) 0 0
        ⟨[⟨⟨7, 5⟩, true⟩], true⟩ 7 ⟨9⟩ =
      handleAllocationRequest (fun pr _ => pr) 0 0
        ⟨[⟨⟨7, 5⟩, true⟩], true⟩ 7 ⟨3⟩ :=
  handleAllocationRequest_committed_entry (fun pr _ => pr) 0 0
    ⟨[⟨⟨7, 5⟩, true⟩], true⟩ 7 ⟨9⟩ ⟨3⟩ ⟨⟨7, 5⟩, true⟩ rfl rfl

/-- C5: when the first entry found by the backward scan for the requesting
unique ID is not yet committed, `handleAllocationRequest` causes zero appends
and zero broadcasts, for any preference and any leadership status. -/
theorem handleAllocationRequest_uncommitted_entry
    (selector : NodeID → (NodeID → Bool) → NodeID)
    (appendRes broadcastRes : Int) (s : RaftCoreState)
    (unique_id : UniqueID) (p : NodeID) (info : LogEntryInfo)
    (hfind : s.traverseLogFromEndUntil (UniqueIDLogPredicate unique_id) =
      some info)
    (hcom : info.committed = false) :
    countAppend
      (handleAllocationRequest selector appendRes broadcastRes s
        unique_id p) = 0 ∧
    countBroadcast
      (handleAllocationRequest selector appendRes broadcastRes s
        unique_id p) = 0 := by
  unfold handleAllocationRequest
  rw [hfind]
  simp [hcom, countAppend, countBroadcast]

/-- C5 witness: a concrete leader state whose log holds the uncommitted entry
(7, 5); the request for unique ID 7 appends nothing and broadcasts nothing. -/
theorem handleAllocationRequest_uncommitted_entry_witness :
    countAppend (handleAllocationRequest (fun pr _ => pr) 0 0
      ⟨[⟨⟨7, 5⟩, false⟩], true⟩ 7 ⟨9⟩) = 0 ∧
    countBroadcast (handleAllocationRequest (fun pr _ => pr) 0 0
      ⟨[⟨⟨7, 5⟩, false⟩], true⟩ 7 ⟨9⟩) = 0 :=
  handleAllocationRequest_uncommitted_entry (fun pr _ => pr) 0 0
    ⟨[⟨⟨7, 5⟩, false⟩], true⟩ 7 ⟨9⟩ ⟨⟨7, 5⟩, false⟩ rfl rfl

/-- C6: when no entry matches the requesting unique ID and this replica is
not leader, `handleAllocationRequest` causes zero appends and zero
broadcasts, for any preference. -/
theorem handleAllocationRequest_not_leader
    (selector : NodeID → (NodeID → Bool) → NodeID)
    (appendRes broadcastRes : Int) (s : RaftCoreState)
    (unique_id : UniqueID) (p : NodeID)
    (hnone : s.traverseLogFromEndUntil (UniqueIDLogPredicate unique_id) =
      none)
    (hlead : s.isLeader = false) :
    countAppend
      (handleAllocationRequest selector appendRes broadcastRes s
        unique_id p) = 0 ∧
    countBroadcast
      (handleAllocationRequest selector appendRes broadcastRes s
        unique_id p) = 0 := by
  unfold handleAllocationRequest
  rw [hnone]
  simp [hlead, countAppend, countBroadcast]

/-- C6 witness: a concrete non-leader state with an empty log; the request
for unique ID 7 appends nothing and broadcasts nothing. -/
theorem handleAllocationRequest_not_leader_witness :
    countAppend (handleAllocationRequest (fun pr _ => pr) 0 0
      ⟨[], false⟩ 7 ⟨9⟩) = 0 ∧
    countBroadcast (handleAllocationRequest (fun pr _ => pr) 0 0
      ⟨[], false⟩ 7 ⟨9⟩) = 0 :=
  handleAllocationRequest_not_leader (fun pr _ => pr) 0 0
    ⟨[], false⟩ 7 ⟨9⟩ rfl rfl

/-- C3: when no entry matches the requesting unique ID and this replica is
leader, with the selector modelled from the spec: if the selector returns a
unicast node ID, `handleAllocationRequest` causes exactly one append of that
node ID for the requesting unique ID and zero broadcasts, the selected node
ID is not taken by any existing log entry (committed or not) at selection
time, and it equals the preferred node ID whenever that is a usable unicast
value that is not taken; if the selector returns the non-unicast sentinel,
`handleAllocationRequest` causes zero appends and zero broadcasts. -/
theorem handleAllocationRequest_new_allocation
    (appendRes broadcastRes : Int) (s : RaftCoreState)
    (unique_id : UniqueID) (preferred : NodeID)
    (hnone : s.traverseLogFromEndUntil (UniqueIDLogPredicate unique_id) =
      none)
    (hlead : s.isLeader = true) :
    ((findFreeNodeID preferred (fun nid => isNodeIDTaken s nid)).isUnicast =
        true →
      countAppend
        (handleAllocationRequest findFreeNodeID appendRes broadcastRes s
          unique_id preferred) = 1 ∧
      Effect.append unique_id
          (findFreeNodeID preferred (fun nid => isNodeIDTaken s nid)) ∈
        handleAllocationRequest findFreeNodeID appendRes broadcastRes s
          unique_id preferred ∧
      countBroadcast
        (handleAllocationRequest findFreeNodeID appendRes broadcastRes s
          unique_id preferred) = 0 ∧
      isNodeIDTaken s
        (findFreeNodeID preferred (fun nid => isNodeIDTaken s nid)) = false ∧
      (preferred.isUnicast = true → isNodeIDTaken s preferred = false →
        findFreeNodeID preferred (fun nid => isNodeIDTaken s nid) =
          preferred)) ∧
    ((findFreeNodeID preferred (fun nid => isNodeIDTaken s nid)).isUnicast =
        false →
      handleAllocationRequest findFreeNodeID appendRes broadcastRes s
        unique_id preferred = []) := by
  have hred := handleAllocationRequest_eq_unseen findFreeNodeID appendRes
    broadcastRes s unique_id preferred hnone
  rw [hlead] at hred
  simp only [if_true] at hred
  constructor
  · intro hu
    rw [hred, allocateNewNode_unicast findFreeNodeID appendRes s unique_id
      preferred hu]
    refine ⟨?_, ?_, ?_, findFreeNodeID_free preferred _ hu,
      findFreeNodeID_prefers preferred _⟩
    · split <;> simp [countAppend]
    · simp
    · split <;> simp [countBroadcast]
  · intro hu
    rw [hred]
    exact allocateNewNode_not_unicast findFreeNodeID appendRes s unique_id
      preferred hu

/-- C3 witness: a concrete leader state with an empty log; unique ID 7 is
unseen, the selector grants the free preferred node ID 42, and the request
appends (7, 42) exactly once with no broadcast. -/
theorem handleAllocationRequest_new_allocation_witness :
    ((findFreeNodeID ⟨42⟩
        (fun nid => isNodeIDTaken ⟨[], true⟩ nid)).isUnicast = true →
      countAppend (handleAllocationRequest findFreeNodeID 0 0
        ⟨[], true⟩ 7 ⟨42⟩) = 1 ∧
      Effect.append 7
          (findFreeNodeID ⟨42⟩ (fun nid => isNodeIDTaken ⟨[], true⟩ nid)) ∈
        handleAllocationRequest findFreeNodeID 0 0 ⟨[], true⟩ 7 ⟨42⟩ ∧
      countBroadcast (handleAllocationRequest findFreeNodeID 0 0
        ⟨[], true⟩ 7 ⟨42⟩) = 0 ∧
      isNodeIDTaken ⟨[], true⟩
        (findFreeNodeID ⟨42⟩ (fun nid => isNodeIDTaken ⟨[], true⟩ nid)) =
          false ∧
      (NodeID.isUnicast ⟨42⟩ = true →
        isNodeIDTaken ⟨[], true⟩ ⟨42⟩ = false →
        findFreeNodeID ⟨42⟩ (fun nid => isNodeIDTaken ⟨[], true⟩ nid) =
          ⟨42⟩)) ∧
    ((findFreeNodeID ⟨42⟩
        (fun nid => isNodeIDTaken ⟨[], true⟩ nid)).isUnicast = false →
      handleAllocationRequest findFreeNodeID 0 0 ⟨[], true⟩ 7 ⟨42⟩ = []) :=
  handleAllocationRequest_new_allocation 0 0 ⟨[], true⟩ 7 ⟨42⟩ rfl rfl

/-- C8: a negative broadcast result makes `tryPublishAllocationResult` emit
exactly one internal-failure report, and a negative append result makes
`allocateNewNode` (with a selector granting a unicast node ID) emit exactly
one internal-failure report; a nonnegative result emits none. In both cases
the attempt is not retried: the trace holds exactly one broadcast,
respectively exactly one append, whatever the result. -/
theorem failure_reported_once_and_abandoned
    (appendRes broadcastRes : Int) (entry : Entry)
    (selector : NodeID → (NodeID → Bool) → NodeID) (s : RaftCoreState)
    (unique_id : UniqueID) (preferred : NodeID)
    (hu : (selector preferred (fun nid => isNodeIDTaken s nid)).isUnicast =
      true) :
    countReport (tryPublishAllocationResult broadcastRes entry) =
      (if broadcastRes < 0 then 1 else 0) ∧
    countBroadcast (tryPublishAllocationResult broadcastRes entry) = 1 ∧
    countReport (allocateNewNode selector appendRes s unique_id preferred) =
      (if appendRes < 0 then 1 else 0) ∧
    countAppend (allocateNewNode selector appendRes s unique_id preferred) =
      1 := by
  rw [allocateNewNode_unicast selector appendRes s unique_id preferred hu]
  unfold tryPublishAllocationResult
  refine ⟨?_, ?_, ?_, ?_⟩ <;>
    split <;> simp [countReport, countBroadcast, countAppend]

/-- C8 witness: with failing collaborator results (-1) for both the broadcast
of entry (7, 5) and the append of the granted node ID 42, each operation
reports exactly one internal failure while still performing its single
broadcast, respectively single append. -/
theorem failure_reported_once_and_abandoned_witness :
    countReport (tryPublishAllocationResult (-1) ⟨7, 5⟩) =
      (if (-1 : Int) < 0 then 1 else 0) ∧
    countBroadcast (tryPublishAllocationResult (-1) ⟨7, 5⟩) = 1 ∧
    countReport (allocateNewNode (fun pr _ => pr) (-1) ⟨[], true⟩ 7 ⟨42⟩) =
      (if (-1 : Int) < 0 then 1 else 0) ∧
    countAppend (allocateNewNode (fun pr _ => pr) (-1) ⟨[], true⟩ 7 ⟨42⟩) =
      1 :=
  failure_reported_once_and_abandoned (-1) (-1) ⟨7, 5⟩ (fun pr _ => pr)
    ⟨[], true⟩ 7 ⟨42⟩ (by decide)

/-- Appends emitted by `allocateNewNode` always carry a unicast node ID,
because the non-unicast branch returns before the append. -/
theorem allocateNewNode_append_unicast
    (selector : NodeID → (NodeID → Bool) → NodeID) (appendRes : Int)
    (s : RaftCoreState) (unique_id u : UniqueID) (preferred n : NodeID)
    (hmem : Effect.append u n ∈
      allocateNewNode selector appendRes s unique_id preferred) :
    n.isUnicast = true := by
  by_cases hu : (selector preferred
      (fun nid => isNodeIDTaken s nid)).isUnicast = true
  · rw [allocateNewNode_unicast selector appendRes s unique_id preferred
      hu] at hmem
    rcases List.mem_cons.mp hmem with heq | hrest
    · cases heq
      exact hu
    · split at hrest <;> simp at hrest
  · rw [allocateNewNode_not_unicast selector appendRes s unique_id preferred
      (Bool.not_eq_true _ ▸ Bool.of_not_eq_true hu)] at hmem
    simp at hmem

/-- C10: every append effect caused by `handleAllocationRequest` — for any
selector, collaborator results, state, request and preference — carries a
node ID satisfying the unicast validity predicate; the coordinator never
appends the invalid sentinel. -/
theorem handleAllocationRequest_append_unicast
    (selector : NodeID → (NodeID → Bool) → NodeID)
    (appendRes broadcastRes : Int) (s : RaftCoreState)
    (unique_id u : UniqueID) (preferred n : NodeID)
    (hmem : Effect.append u n ∈
      handleAllocationRequest selector appendRes broadcastRes s unique_id
        preferred) :
    n.isUnicast = true := by
  cases htr : s.traverseLogFromEndUntil (UniqueIDLogPredicate unique_id) with
  | some result =>
      rw [handleAllocationRequest_eq_found selector appendRes broadcastRes s
        unique_id preferred result htr] at hmem
      split at hmem
      · unfold tryPublishAllocationResult at hmem
        rcases List.mem_cons.mp hmem with heq | hrest
        · cases heq
        · split at hrest <;> simp at hrest
      · simp at hmem
  | none =>
      rw [handleAllocationRequest_eq_unseen selector appendRes broadcastRes s
        unique_id preferred htr] at hmem
      split at hmem
      · exact allocateNewNode_append_unicast selector appendRes s unique_id u
          preferred n hmem
      · simp at hmem

/-- C10 witness: in a concrete leader state with an empty log, the request
for unique ID 7 with preference 42 emits the append (7, 42), and the theorem
certifies its node ID is unicast. -/
theorem handleAllocationRequest_append_unicast_witness :
    NodeID.isUnicast ⟨42⟩ = true :=
  handleAllocationRequest_append_unicast (fun pr _ => pr) 0 0 ⟨[], true⟩
    7 7 ⟨42⟩ ⟨42⟩ (by decide)

end Uavcan
